import Mathlib

/-!
Shallow embedding of the two Solidity contracts of the Twist repository,
`TwistToken.sol` (token vesting ledger) and `BlockchainNodeRegistry.sol`
(node lifecycle store), together with theorems settling the specification
claims about them.

Machine integers (`uint256`) are modelled as `Nat`; Solidity 0.8 checked
arithmetic reverts on underflow, which is modelled with explicit guards
returning an error (a revert rolls the whole transaction back, so a failed
operation produces no new state).  Addresses and `bytes32` identifiers are
modelled as `Nat`, with `0` standing for the null address / zero word.
-/

/-- Maximum supply of 100 million tokens with 18 decimals,
from `MAX_SUPPLY = 100_000_000 * 10**18` in TwistToken.sol. -/
def MAX_SUPPLY : Nat := 100000000000000000000000000

/-- Vesting duration fixed by the TwistToken constructor:
`vestingEndTime = block.timestamp + 730 days` (730 * 86400 seconds). -/
def VESTING_DURATION : Nat := 730 * 86400

/-- Revert reasons of TwistToken.sol, one constructor per `require` message
(plus the checked-arithmetic panics of Solidity 0.8: subtraction underflow
and division by zero). -/
inductive TokenError where
  /-- revert of the `whenNotPaused` modifier. -/
  | pausedError : TokenError
  /-- require message "Invalid address" in `addVesting`. -/
  | invalidAddress : TokenError
  /-- require message "Amount must be greater than 0" in `addVesting`. -/
  | amountZero : TokenError
  /-- require message "Exceeds max supply" in `addVesting`. -/
  | exceedsMaxSupply : TokenError
  /-- require message "No vested tokens" in `claimVestedTokens`. -/
  | noVestedTokens : TokenError
  /-- require message "All tokens claimed" in `claimVestedTokens`. -/
  | allTokensClaimed : TokenError
  /-- checked-arithmetic panic of `block.timestamp - vestingStartTime`. -/
  | elapsedUnderflow : TokenError
  /-- checked-arithmetic panic of division by a zero `totalPeriod`. -/
  | periodZero : TokenError
  /-- checked-arithmetic panic of `vestedSoFar - claimed` in the linear
  branch of `claimVestedTokens` (the subtraction the spec calls unguarded). -/
  | claimUnderflow : TokenError
  /-- require message "No tokens to claim" in `claimVestedTokens`. -/
  | noTokensToClaim : TokenError
  /-- revert of the `onlyRole(DEFAULT_ADMIN_ROLE)` modifier. -/
  | missingRole : TokenError
deriving DecidableEq

/-- State of the TwistToken contract restricted to the fields the vesting
operations read or write: the vesting window, the per-beneficiary vested
and claimed mappings, the global vested total, the ERC20 total supply and
balances (written by `_mint`), the pause flag, and the set of holders of
`DEFAULT_ADMIN_ROLE` (the only role the modelled operations consult). -/
structure Ledger where
  vestingStartTime : Nat
  vestingEndTime : Nat
  totalVested : Nat
  vestedAmount : Nat → Nat
  claimedAmount : Nat → Nat
  totalSupply : Nat
  balanceOf : Nat → Nat
  isAdmin : Nat → Bool
  paused : Bool

/-- State produced by the TwistToken constructor: mints `initialSupply` to
the admin, grants the admin role, and sets the vesting window to
`[startTime, startTime + 730 days]`.  The constructor's
`require(_initialSupply <= MAX_SUPPLY)` is imposed as a hypothesis of the
reachability relation below. -/
def initLedger (startTime admin initialSupply : Nat) : Ledger where
  vestingStartTime := startTime
  vestingEndTime := startTime + VESTING_DURATION
  totalVested := 0
  vestedAmount := fun _ => 0
  claimedAmount := fun _ => 0
  totalSupply := initialSupply
  balanceOf := fun a => if a = admin then initialSupply else 0
  isAdmin := fun a => a == admin
  paused := false

/-- Embedding of `addVesting(address _beneficiary, uint256 _amount)`:
admin-gated; requires a non-null beneficiary, a positive amount, and
`totalSupply() + _amount <= MAX_SUPPLY` (note: the source check does not
involve `totalVested`); then accumulates into the beneficiary's vested
amount and the global vested total. -/
def addVesting (s : Ledger) (caller beneficiary amount : Nat) :
    Except TokenError Ledger :=
  if s.isAdmin caller then
    if beneficiary = 0 then Except.error TokenError.invalidAddress
    else if amount = 0 then Except.error TokenError.amountZero
    else if MAX_SUPPLY < s.totalSupply + amount then
      Except.error TokenError.exceedsMaxSupply
    else
      Except.ok
        { s with
          vestedAmount := fun x =>
            if x = beneficiary then s.vestedAmount x + amount
            else s.vestedAmount x
          totalVested := s.totalVested + amount }
  else Except.error TokenError.missingRole

/-- Embedding of `claimVestedTokens()` called by `beneficiary` at
timestamp `now`: guarded by `whenNotPaused`; requires a positive vested
total not yet fully claimed; claims everything remaining after the window
end, otherwise the linearly vested amount minus what was already claimed
(an unguarded `uint256` subtraction, reverting on underflow); requires the
result positive, then adds it to the claimed amount and mints it.
Returns the new state together with the claimed amount. -/
def claimVestedTokens (s : Ledger) (beneficiary now : Nat) :
    Except TokenError (Ledger × Nat) :=
  if s.paused then Except.error TokenError.pausedError
  else
    let vestedTotal := s.vestedAmount beneficiary
    let claimed := s.claimedAmount beneficiary
    if vestedTotal = 0 then Except.error TokenError.noVestedTokens
    else if vestedTotal ≤ claimed then Except.error TokenError.allTokensClaimed
    else if s.vestingEndTime ≤ now then
      let claimable := vestedTotal - claimed
      if claimable = 0 then Except.error TokenError.noTokensToClaim
      else
        Except.ok
          ({ s with
             claimedAmount := fun x =>
               if x = beneficiary then s.claimedAmount x + claimable
               else s.claimedAmount x
             totalSupply := s.totalSupply + claimable
             balanceOf := fun x =>
               if x = beneficiary then s.balanceOf x + claimable
               else s.balanceOf x }, claimable)
    else if now < s.vestingStartTime then Except.error TokenError.elapsedUnderflow
    else
      let elapsed := now - s.vestingStartTime
      let totalPeriod := s.vestingEndTime - s.vestingStartTime
      if totalPeriod = 0 then Except.error TokenError.periodZero
      else
        let vestedSoFar := vestedTotal * elapsed / totalPeriod
        if vestedSoFar < claimed then Except.error TokenError.claimUnderflow
        else
          let claimable := vestedSoFar - claimed
          if claimable = 0 then Except.error TokenError.noTokensToClaim
          else
            Except.ok
              ({ s with
                 claimedAmount := fun x =>
                   if x = beneficiary then s.claimedAmount x + claimable
                   else s.claimedAmount x
                 totalSupply := s.totalSupply + claimable
                 balanceOf := fun x =>
                   if x = beneficiary then s.balanceOf x + claimable
                   else s.balanceOf x }, claimable)

/-- Embedding of the view `getClaimableAmount(address _beneficiary)` at
timestamp `now`: returns 0 with no vesting or when fully claimed, the full
remainder after the window end, and otherwise the linear amount clamped to
zero.  On chain `block.timestamp` never precedes `vestingStartTime`, so the
`Nat`-truncated `now - vestingStartTime` agrees with the source whenever
`vestingStartTime ≤ now`; every theorem about this function assumes that. -/
def getClaimableAmount (s : Ledger) (beneficiary now : Nat) : Nat :=
  let vestedTotal := s.vestedAmount beneficiary
  let claimed := s.claimedAmount beneficiary
  if vestedTotal = 0 ∨ vestedTotal ≤ claimed then 0
  else if s.vestingEndTime ≤ now then vestedTotal - claimed
  else
    let elapsed := now - s.vestingStartTime
    let totalPeriod := s.vestingEndTime - s.vestingStartTime
    let vestedSoFar := vestedTotal * elapsed / totalPeriod
    if claimed < vestedSoFar then vestedSoFar - claimed else 0

/-- Transcription of the claimable-amount clause of the specification
(§4.4), written from the spec wording for the refinement claim: 0 without
vesting or when fully claimed; everything remaining from the window end on;
otherwise linear interpolation with truncating division, clamped to be
non-negative (`Nat` subtraction is exactly that clamp). -/
def claimableSpec (vested claimed ws we now : Nat) : Nat :=
  if vested = 0 ∨ vested ≤ claimed then 0
  else if we ≤ now then vested - claimed
  else vested * (now - ws) / (we - ws) - claimed

/-- Amount linearly vested by time `t`: the full `vested` from `we` on,
otherwise `vested * (t - ws) / (we - ws)`.  Used to state the ledger
invariant carried along reachable traces. -/
def linVest (vested ws we t : Nat) : Nat :=
  if we ≤ t then vested else vested * (t - ws) / (we - ws)

/-- Ledger states reachable from a freshly constructed contract by a serial
sequence of `addVesting` and `claimVestedTokens` operations with
non-decreasing logical timestamps.  `Reach s t` means state `s` is
reachable with `t` the timestamp of the last operation (or of deployment);
each operation executes at a time no earlier than the previous one. -/
inductive Reach : Ledger → Nat → Prop where
  | init (startTime admin initialSupply : Nat)
      (hsup : initialSupply ≤ MAX_SUPPLY) :
      Reach (initLedger startTime admin initialSupply) startTime
  | addV {s : Ledger} {t : Nat} (caller beneficiary amount : Nat) {t' : Nat}
      {s' : Ledger} (hr : Reach s t) (ht : t ≤ t')
      (hop : addVesting s caller beneficiary amount = Except.ok s') :
      Reach s' t'
  | claim {s : Ledger} {t : Nat} (beneficiary : Nat) {t' : Nat} {s' : Ledger}
      {amt : Nat} (hr : Reach s t) (ht : t ≤ t')
      (hop : claimVestedTokens s beneficiary t' = Except.ok (s', amt)) :
      Reach s' t'

/-- Run helper mapping a reverted TwistToken operation back to the
pre-state (Solidity reverts roll every write back). -/
def tokRun (s : Ledger) (r : Except TokenError Ledger) : Ledger :=
  match r with
  | Except.ok s' => s'
  | Except.error _ => s

/-- Run helper for operations returning a state together with a value. -/
def tokRunP (s : Ledger) (r : Except TokenError (Ledger × Nat)) : Ledger :=
  match r with
  | Except.ok p => p.1
  | Except.error _ => s

/-- Value returned by a claim, 0 when the operation reverted. -/
def tokAmt (r : Except TokenError (Ledger × Nat)) : Nat :=
  match r with
  | Except.ok p => p.2
  | Except.error _ => 0

/-- Success test for a TwistToken state-only operation. -/
def tokOk (r : Except TokenError Ledger) : Bool :=
  match r with
  | Except.ok _ => true
  | Except.error _ => false

/-- Node status enum of BlockchainNodeRegistry.sol, in declaration order
(the zero value of the enum is `Running`). -/
inductive NodeStatus where
  | Running | Stopped | Starting | Syncing | Error | Maintenance
deriving DecidableEq

/-- Chain type enum of BlockchainNodeRegistry.sol. -/
inductive ChainType where
  | Ethereum | Polygon | Arbitrum | BSC | Custom
deriving DecidableEq

/-- Cloud provider enum of BlockchainNodeRegistry.sol. -/
inductive CloudProvider where
  | AWS | GCP | Azure | DigitalOcean | OnPremise
deriving DecidableEq

/-- The `Node` struct of BlockchainNodeRegistry.sol. -/
structure Node where
  id : Nat
  name : String
  chainType : ChainType
  endpointUrl : String
  status : NodeStatus
  version : String
  currentBlock : Nat
  highestBlock : Nat
  registeredAt : Nat
  updatedAt : Nat
  region : String
  provider : CloudProvider
  owner : Nat
  isActive : Bool
deriving DecidableEq

/-- Zero value of the `Node` struct: what a Solidity mapping returns for a
key never written (all fields zeroed; enum zero values are the first
constructors). -/
def zeroNode : Node where
  id := 0
  name := ""
  chainType := ChainType.Ethereum
  endpointUrl := ""
  status := NodeStatus.Running
  version := ""
  currentBlock := 0
  highestBlock := 0
  registeredAt := 0
  updatedAt := 0
  region := ""
  provider := CloudProvider.AWS
  owner := 0
  isActive := false

/-- Revert reasons of BlockchainNodeRegistry.sol, one constructor per
`require` message plus the checked-arithmetic panic of the chain-counter
decrement. -/
inductive RegistryError where
  /-- require message "Not the node owner" of the `onlyNodeOwner` modifier. -/
  | notTheNodeOwner : RegistryError
  /-- require message "Node does not exist" of the `nodeExists` modifier. -/
  | nodeDoesNotExist : RegistryError
  /-- require message "Node already exists" in `registerNode`. -/
  | nodeAlreadyExists : RegistryError
  /-- checked-arithmetic panic of `nodeCountByChain[node.chainType]--`
  when the counter is already zero. -/
  | counterUnderflow : RegistryError
deriving DecidableEq

/-- Storage of the BlockchainNodeRegistry contract: the node mapping (total
function defaulting to `zeroNode`), the global id array, the per-owner id
arrays, and the per-chain-type counters. -/
structure Registry where
  nodes : Nat → Node
  nodeIds : List Nat
  ownerNodes : Nat → List Nat
  nodeCountByChain : ChainType → Nat

/-- Freshly deployed registry: every mapping zeroed, every array empty. -/
def emptyRegistry : Registry where
  nodes := fun _ => zeroNode
  nodeIds := []
  ownerNodes := fun _ => []
  nodeCountByChain := fun _ => 0

/-- Embedding of `registerNode`, parametrized by the identifier derivation
`hash` standing for `keccak256(abi.encodePacked(msg.sender, _name,
block.timestamp))` (keccak256 is uninterpreted crypto; every claim below is
independent of its definition beyond determinism).  Requires
`nodes[nodeId].id != nodeId`, then stores the new record with status
`Starting`, zero block counters, both timestamps set to `now`, `active`
true, appends the id to the global and owner indices, and increments the
chain-type counter. -/
def registerNode (hash : Nat → String → Nat → Nat) (s : Registry)
    (caller : Nat) (name : String) (chainType : ChainType)
    (endpointUrl version region : String) (provider : CloudProvider)
    (now : Nat) : Except RegistryError (Registry × Nat) :=
  let nodeId := hash caller name now
  if (s.nodes nodeId).id = nodeId then Except.error RegistryError.nodeAlreadyExists
  else
    let newNode : Node :=
      { id := nodeId
        name := name
        chainType := chainType
        endpointUrl := endpointUrl
        status := NodeStatus.Starting
        version := version
        currentBlock := 0
        highestBlock := 0
        registeredAt := now
        updatedAt := now
        region := region
        provider := provider
        owner := caller
        isActive := true }
    Except.ok
      ({ nodes := fun x => if x = nodeId then newNode else s.nodes x
         nodeIds := s.nodeIds ++ [nodeId]
         ownerNodes := fun o =>
           if o = caller then s.ownerNodes o ++ [nodeId] else s.ownerNodes o
         nodeCountByChain := fun c =>
           if c = chainType then s.nodeCountByChain c + 1
           else s.nodeCountByChain c }, nodeId)

/-- Embedding of `updateNodeStatus(bytes32, NodeStatus, uint256, uint256)`
called by `caller` at timestamp `now`.  The `onlyNodeOwner` modifier runs
before `nodeExists` (source order of the modifier list).  The status field
is assigned only when it changes (the source guards the assignment together
with the change event); block counters and `updatedAt` are updated
unconditionally. -/
def updateNodeStatus (s : Registry) (caller nodeId : Nat)
    (status : NodeStatus) (currentBlock highestBlock now : Nat) :
    Except RegistryError Registry :=
  if (s.nodes nodeId).owner ≠ caller then
    Except.error RegistryError.notTheNodeOwner
  else if (s.nodes nodeId).id ≠ nodeId then
    Except.error RegistryError.nodeDoesNotExist
  else
    let node := s.nodes nodeId
    let node1 := if node.status ≠ status then { node with status := status } else node
    let node2 :=
      { node1 with
        currentBlock := currentBlock
        highestBlock := highestBlock
        updatedAt := now }
    Except.ok { s with nodes := fun x => if x = nodeId then node2 else s.nodes x }

/-- Embedding of `deregisterNode(bytes32)` called by `caller`: after the
`onlyNodeOwner` and `nodeExists` modifiers it sets `isActive` to false and
decrements the chain-type counter unconditionally — there is no check of
the current `isActive` value, and the decrement reverts only when the
counter is already zero (checked arithmetic). -/
def deregisterNode (s : Registry) (caller nodeId : Nat) :
    Except RegistryError Registry :=
  if (s.nodes nodeId).owner ≠ caller then
    Except.error RegistryError.notTheNodeOwner
  else if (s.nodes nodeId).id ≠ nodeId then
    Except.error RegistryError.nodeDoesNotExist
  else
    let node := s.nodes nodeId
    if s.nodeCountByChain node.chainType = 0 then
      Except.error RegistryError.counterUnderflow
    else
      Except.ok
        { s with
          nodes := fun x =>
            if x = nodeId then { node with isActive := false } else s.nodes x
          nodeCountByChain := fun c =>
            if c = node.chainType then s.nodeCountByChain c - 1
            else s.nodeCountByChain c }

/-- Embedding of the view `getNodeCount()`. -/
def getNodeCount (s : Registry) : Nat :=
  s.nodeIds.length

/-- Body of the view `getNodeSyncPercentage` after its `nodeExists`
modifier: 100 when the highest block is zero or the current block exceeds
it, otherwise `currentBlock * 100 / highestBlock` in integer arithmetic. -/
def syncPercentageOf (node : Node) : Nat :=
  if node.highestBlock = 0 ∨ node.highestBlock < node.currentBlock then 100
  else node.currentBlock * 100 / node.highestBlock

/-- Embedding of the view `getNodeSyncPercentage(bytes32)`, including the
`nodeExists` modifier. -/
def getNodeSyncPercentage (s : Registry) (nodeId : Nat) :
    Except RegistryError Nat :=
  if (s.nodes nodeId).id ≠ nodeId then
    Except.error RegistryError.nodeDoesNotExist
  else
    Except.ok (syncPercentageOf (s.nodes nodeId))

/-- Run helper mapping a reverted registry operation back to the pre-state. -/
def regRun (s : Registry) (r : Except RegistryError Registry) : Registry :=
  match r with
  | Except.ok s' => s'
  | Except.error _ => s

/-- Run helper for `registerNode`, which returns a state and an id. -/
def regRunP (s : Registry) (r : Except RegistryError (Registry × Nat)) :
    Registry :=
  match r with
  | Except.ok p => p.1
  | Except.error _ => s

/-- Success test for a registry state-only operation. -/
def regOk (r : Except RegistryError Registry) : Bool :=
  match r with
  | Except.ok _ => true
  | Except.error _ => false

/-- Error projection of a registry operation result (`none` on success). -/
def regErrOf (r : Except RegistryError Registry) : Option RegistryError :=
  match r with
  | Except.ok _ => none
  | Except.error e => some e

/-- Error projection of a claim result (`none` on success). -/
def tokErrOfP (r : Except TokenError (Ledger × Nat)) : Option TokenError :=
  match r with
  | Except.ok _ => none
  | Except.error e => some e

/-- Upper bound of the sync-percentage body: the result never exceeds 100. -/
theorem syncPercentageOf_le (node : Node) : syncPercentageOf node ≤ 100 := by
  unfold syncPercentageOf
  split_ifs with h
  · exact Nat.le_refl 100
  · push_neg at h
    calc node.currentBlock * 100 / node.highestBlock
        ≤ node.highestBlock * 100 / node.highestBlock :=
          Nat.div_le_div_right (Nat.mul_le_mul_right 100 h.2)
      _ ≤ 100 :=
          Nat.le_of_eq (Nat.mul_div_cancel_left 100 (Nat.pos_of_ne_zero h.1))

/-- C5: for every registered node, `getNodeSyncPercentage` succeeds and
returns a value in [0,100]; it returns 100 whenever the highest block is 0
or the current block exceeds the highest block, and otherwise returns
`currentBlock * 100 / highestBlock` with truncating integer division. -/
theorem C5_sync_percentage_range (s : Registry) (nodeId : Nat)
    (hex : (s.nodes nodeId).id = nodeId) :
    getNodeSyncPercentage s nodeId = Except.ok (syncPercentageOf (s.nodes nodeId))
    ∧ syncPercentageOf (s.nodes nodeId) ≤ 100
    ∧ (((s.nodes nodeId).highestBlock = 0
        ∨ (s.nodes nodeId).highestBlock < (s.nodes nodeId).currentBlock) →
        syncPercentageOf (s.nodes nodeId) = 100)
    ∧ ((s.nodes nodeId).highestBlock ≠ 0 →
        (s.nodes nodeId).currentBlock ≤ (s.nodes nodeId).highestBlock →
        syncPercentageOf (s.nodes nodeId)
          = (s.nodes nodeId).currentBlock * 100 / (s.nodes nodeId).highestBlock) := by
  refine ⟨?_, syncPercentageOf_le _, ?_, ?_⟩
  · unfold getNodeSyncPercentage
    rw [if_neg (fun hne => hne hex)]
  · intro h
    unfold syncPercentageOf
    exact if_pos h
  · intro h1 h2
    unfold syncPercentageOf
    rw [if_neg]
    push_neg
    exact ⟨h1, h2⟩

/-- Concrete registry holding a single node used to instantiate C5: node 3
is registered with current block 750000 and highest block 1000000. -/
def c5reg : Registry where
  nodes := fun x =>
    if x = 3 then
      { zeroNode with
        id := 3
        owner := 7
        status := NodeStatus.Syncing
        currentBlock := 750000
        highestBlock := 1000000
        isActive := true }
    else zeroNode
  nodeIds := [3]
  ownerNodes := fun o => if o = 7 then [3] else []
  nodeCountByChain := fun c => if c = ChainType.Ethereum then 1 else 0

/-- Witness for C5 at the concrete node 3 of `c5reg`. -/
theorem C5_sync_percentage_range_wit :
    getNodeSyncPercentage c5reg 3 = Except.ok (syncPercentageOf (c5reg.nodes 3))
    ∧ syncPercentageOf (c5reg.nodes 3) ≤ 100
    ∧ (((c5reg.nodes 3).highestBlock = 0
        ∨ (c5reg.nodes 3).highestBlock < (c5reg.nodes 3).currentBlock) →
        syncPercentageOf (c5reg.nodes 3) = 100)
    ∧ ((c5reg.nodes 3).highestBlock ≠ 0 →
        (c5reg.nodes 3).currentBlock ≤ (c5reg.nodes 3).highestBlock →
        syncPercentageOf (c5reg.nodes 3)
          = (c5reg.nodes 3).currentBlock * 100 / (c5reg.nodes 3).highestBlock) :=
  C5_sync_percentage_range c5reg 3 (by decide)

/-- C6: under a well-formed window and a timestamp no earlier than the
window start, the source view `getClaimableAmount` computes exactly the
specified claimable amount (`claimableSpec`, transcribed from the spec
wording); in particular it returns 0 at the window start, and from the
window end on it returns the vested total minus the claimed total. -/
theorem C6_claimable_spec (s : Ledger) (b now : Nat)
    (hw : s.vestingStartTime < s.vestingEndTime)
    (hnow : s.vestingStartTime ≤ now) :
    getClaimableAmount s b now
      = claimableSpec (s.vestedAmount b) (s.claimedAmount b)
          s.vestingStartTime s.vestingEndTime now
    ∧ getClaimableAmount s b s.vestingStartTime = 0
    ∧ ∀ t, s.vestingEndTime ≤ t →
        getClaimableAmount s b t = s.vestedAmount b - s.claimedAmount b := by
  refine ⟨?_, ?_, ?_⟩
  · simp only [getClaimableAmount, claimableSpec]
    generalize s.vestedAmount b * (now - s.vestingStartTime)
        / (s.vestingEndTime - s.vestingStartTime) = vs
    split_ifs <;> omega
  · have h0 : s.vestingStartTime - s.vestingStartTime = 0 := Nat.sub_self _
    simp only [getClaimableAmount, h0, Nat.mul_zero, Nat.zero_div]
    split_ifs <;> omega
  · intro t ht
    simp only [getClaimableAmount]
    split_ifs <;> omega

/-- Concrete ledger instantiating C6: window [0,100], beneficiary 2 with
vested total 10000 of which 4000 is already claimed. -/
def c6s : Ledger where
  vestingStartTime := 0
  vestingEndTime := 100
  totalVested := 10000
  vestedAmount := fun x => if x = 2 then 10000 else 0
  claimedAmount := fun x => if x = 2 then 4000 else 0
  totalSupply := 0
  balanceOf := fun _ => 0
  isAdmin := fun a => a == 1
  paused := false

/-- Witness for C6 at the concrete ledger `c6s` and timestamp 50. -/
theorem C6_claimable_spec_wit :
    getClaimableAmount c6s 2 50
      = claimableSpec (c6s.vestedAmount 2) (c6s.claimedAmount 2)
          c6s.vestingStartTime c6s.vestingEndTime 50
    ∧ getClaimableAmount c6s 2 c6s.vestingStartTime = 0
    ∧ ∀ t, c6s.vestingEndTime ≤ t →
        getClaimableAmount c6s 2 t = c6s.vestedAmount 2 - c6s.claimedAmount 2 :=
  C6_claimable_spec c6s 2 50 (by decide) (by decide)

/-- Counterexample for C3: on the freshly deployed registry the identifier
5 is unknown, yet `updateNodeStatus` and `deregisterNode` called by the
non-null caller 1 revert with "Not the node owner" (Unauthorized) — not
with "Node does not exist" (NotFound) — because the `onlyNodeOwner`
modifier runs before `nodeExists` and the absent record's owner is the
zero address. -/
theorem C3_unknown_id_unauthorized_cex :
    regErrOf (updateNodeStatus emptyRegistry 1 5 NodeStatus.Running 0 0 0)
      = some RegistryError.notTheNodeOwner
    ∧ regErrOf (deregisterNode emptyRegistry 1 5)
      = some RegistryError.notTheNodeOwner
    ∧ some RegistryError.notTheNodeOwner ≠ some RegistryError.nodeDoesNotExist := by
  decide

/-- C3 as amended: whichever of the two reasons applies, the ownership
check runs first, so any call whose caller differs from the stored owner
field fails with Unauthorized — in particular a call on an unknown
identifier by a caller other than the null identity, since the absent
record's owner is the null identity; NotFound is reported only when the
owner field happens to equal the caller while the identifier is unknown.
Both failures leave the store unchanged. -/
theorem C3_owner_check_first (s : Registry) (caller nodeId : Nat)
    (status : NodeStatus) (currentBlock highestBlock now : Nat) :
    ((s.nodes nodeId).owner ≠ caller →
      updateNodeStatus s caller nodeId status currentBlock highestBlock now
        = Except.error RegistryError.notTheNodeOwner
      ∧ deregisterNode s caller nodeId = Except.error RegistryError.notTheNodeOwner
      ∧ regRun s (updateNodeStatus s caller nodeId status currentBlock highestBlock now) = s
      ∧ regRun s (deregisterNode s caller nodeId) = s)
    ∧ ((s.nodes nodeId).owner = caller → (s.nodes nodeId).id ≠ nodeId →
      updateNodeStatus s caller nodeId status currentBlock highestBlock now
        = Except.error RegistryError.nodeDoesNotExist
      ∧ deregisterNode s caller nodeId = Except.error RegistryError.nodeDoesNotExist
      ∧ regRun s (updateNodeStatus s caller nodeId status currentBlock highestBlock now) = s
      ∧ regRun s (deregisterNode s caller nodeId) = s) := by
  constructor
  · intro howner
    have hu : updateNodeStatus s caller nodeId status currentBlock highestBlock now
        = Except.error RegistryError.notTheNodeOwner := by
      unfold updateNodeStatus
      exact if_pos howner
    have hd : deregisterNode s caller nodeId
        = Except.error RegistryError.notTheNodeOwner := by
      unfold deregisterNode
      exact if_pos howner
    exact ⟨hu, hd, by rw [hu]; rfl, by rw [hd]; rfl⟩
  · intro howner hid
    have hu : updateNodeStatus s caller nodeId status currentBlock highestBlock now
        = Except.error RegistryError.nodeDoesNotExist := by
      unfold updateNodeStatus
      rw [if_neg (fun hne => hne howner), if_pos hid]
    have hd : deregisterNode s caller nodeId
        = Except.error RegistryError.nodeDoesNotExist := by
      unfold deregisterNode
      rw [if_neg (fun hne => hne howner), if_pos hid]
    exact ⟨hu, hd, by rw [hu]; rfl, by rw [hd]; rfl⟩

/-- Witness for the amended C3 at the freshly deployed registry, caller 2,
unknown identifier 5. -/
theorem C3_owner_check_first_wit :
    updateNodeStatus emptyRegistry 2 5 NodeStatus.Running 0 0 0
      = Except.error RegistryError.notTheNodeOwner
    ∧ deregisterNode emptyRegistry 2 5 = Except.error RegistryError.notTheNodeOwner
    ∧ regRun emptyRegistry (updateNodeStatus emptyRegistry 2 5 NodeStatus.Running 0 0 0)
        = emptyRegistry
    ∧ regRun emptyRegistry (deregisterNode emptyRegistry 2 5) = emptyRegistry :=
  (C3_owner_check_first emptyRegistry 2 5 NodeStatus.Running 0 0 0).1 (by decide)

/-- C9: whenever the store already holds a node under exactly the
identifier that the hash derivation produces for the incoming
registration, `registerNode` fails with DuplicateIdentifier ("Node already
exists") and leaves the store unchanged. -/
theorem C9_duplicate_identifier (hash : Nat → String → Nat → Nat)
    (s : Registry) (caller : Nat) (name : String) (chainType : ChainType)
    (endpointUrl version region : String) (provider : CloudProvider)
    (now : Nat)
    (hdup : (s.nodes (hash caller name now)).id = hash caller name now) :
    registerNode hash s caller name chainType endpointUrl version region provider now
      = Except.error RegistryError.nodeAlreadyExists
    ∧ regRunP s
        (registerNode hash s caller name chainType endpointUrl version region provider now)
      = s := by
  have hr : registerNode hash s caller name chainType endpointUrl version region provider now
      = Except.error RegistryError.nodeAlreadyExists := by
    unfold registerNode
    exact if_pos hdup
  exact ⟨hr, by rw [hr]; rfl⟩

/-- Hash instantiation for the C9 witness (the claims hold for every
derivation function, so a simple concrete one suffices). -/
def c9hash : Nat → String → Nat → Nat := fun caller _ t => caller + t + 2

/-- Registry for the C9 witness, already holding a node under identifier
5 = c9hash 2 "ab" 1. -/
def c9reg : Registry where
  nodes := fun x =>
    if x = 5 then { zeroNode with id := 5, owner := 2, isActive := true }
    else zeroNode
  nodeIds := [5]
  ownerNodes := fun o => if o = 2 then [5] else []
  nodeCountByChain := fun c => if c = ChainType.Ethereum then 1 else 0

/-- Witness for C9: registering with colliding identifier 5 on `c9reg`
fails with DuplicateIdentifier and leaves the store unchanged. -/
theorem C9_duplicate_identifier_wit :
    registerNode c9hash c9reg 2 "ab" ChainType.Polygon "u" "v" "r" CloudProvider.GCP 1
      = Except.error RegistryError.nodeAlreadyExists
    ∧ regRunP c9reg
        (registerNode c9hash c9reg 2 "ab" ChainType.Polygon "u" "v" "r" CloudProvider.GCP 1)
      = c9reg :=
  C9_duplicate_identifier c9hash c9reg 2 "ab" ChainType.Polygon "u" "v" "r"
    CloudProvider.GCP 1 (by decide)

/-- Hash instantiation for the C2 scenario, collision-free on the inputs
used there. -/
def c2hash : Nat → String → Nat → Nat :=
  fun caller name t => caller * 4294967296 + name.length * 65536 + t + 1

/-- Identifier of the first node of the C2 scenario. -/
def c2idA : Nat := c2hash 7 "a" 0

/-- C2 scenario, step 1: owner 7 registers node "a" on Ethereum at t = 0. -/
def c2r1 : Registry :=
  regRunP emptyRegistry
    (registerNode c2hash emptyRegistry 7 "a" ChainType.Ethereum "u" "v" "r"
      CloudProvider.AWS 0)

/-- C2 scenario, step 2: owner 7 registers a second Ethereum node "bb". -/
def c2r2 : Registry :=
  regRunP c2r1
    (registerNode c2hash c2r1 7 "bb" ChainType.Ethereum "u" "v" "r"
      CloudProvider.AWS 0)

/-- C2 scenario, step 3: owner 7 deregisters node "a". -/
def c2r3 : Registry := regRun c2r2 (deregisterNode c2r2 7 c2idA)

/-- Evaluation of the code at the C2 failing input: after node "a" has been
deregistered (active = false, Ethereum counter down from 2 to 1), a further
`updateNodeStatus` on it still succeeds, and a second `deregisterNode` on
it also succeeds and decrements the Ethereum counter again, to 0, although
the other Ethereum node "bb" is still active — the source has no
AlreadyInactive guard at all, contradicting the claim that both operations
must fail and that the counter is decremented exactly once per record. -/
theorem C2_inactive_guard_missing :
    (c2r3.nodes c2idA).isActive = false
    ∧ c2r3.nodeCountByChain ChainType.Ethereum = 1
    ∧ regOk (updateNodeStatus c2r3 7 c2idA NodeStatus.Running 5 10 9) = true
    ∧ regOk (deregisterNode c2r3 7 c2idA) = true
    ∧ (regRun c2r3 (deregisterNode c2r3 7 c2idA)).nodeCountByChain ChainType.Ethereum = 0
    ∧ (c2r3.nodes (c2hash 7 "bb" 0)).isActive = true := by
  decide

/-- Initial ledger of the C4 scenario: zero initial supply, admin 1. -/
def c4s0 : Ledger := initLedger 0 1 0

/-- C4 scenario, step 1: the admin grants the full maximum supply to
beneficiary 2 (accepted: 0 + MAX_SUPPLY <= MAX_SUPPLY). -/
def c4s1 : Ledger := tokRun c4s0 (addVesting c4s0 1 2 MAX_SUPPLY)

/-- Evaluation of the code at the C4 failing input: with `totalVested`
already at MAX_SUPPLY and the supply still 0, a second grant of MAX_SUPPLY
satisfies the claimed rejection condition
`currentSupply + totalVested + amount > maxSupply`, yet `addVesting`
accepts it — its check `totalSupply() + _amount <= MAX_SUPPLY` ignores
`totalVested` — driving the global vested total to twice the maximum
supply. -/
theorem C4_supply_check_ignores_vested :
    c4s1.totalVested = MAX_SUPPLY
    ∧ MAX_SUPPLY < c4s1.totalSupply + c4s1.totalVested + MAX_SUPPLY
    ∧ tokOk (addVesting c4s1 1 2 MAX_SUPPLY) = true
    ∧ (tokRun c4s1 (addVesting c4s1 1 2 MAX_SUPPLY)).totalVested = 2 * MAX_SUPPLY := by
  decide

/-- C8: every successful `registerNode` stores a record with status
Starting, active = true, zero block counters, both timestamps equal to
`now` and owner equal to the caller; appends the identifier to the global
index and the caller's owner index; increases `getNodeCount` by exactly 1
and the chain-type counter of the registered chain by exactly 1, leaving
every other chain-type counter and owner index unchanged. -/
theorem C8_register(hash : Nat → String → Nat → Nat) (s : Registry)
    (caller : Nat) (name : String) (chainType : ChainType)
    (endpointUrl version region : String) (provider : CloudProvider)
    (now : Nat) (s2 : Registry) (nid : Nat)
    (hreg : registerNode hash s caller name chainType endpointUrl version region provider now
      = Except.ok (s2, nid)) :
    s2.nodes nid =
      { id := nid
        name := name
        chainType := chainType
        endpointUrl := endpointUrl
        status := NodeStatus.Starting
        version := version
        currentBlock := 0
        highestBlock := 0
        registeredAt := now
        updatedAt := now
        region := region
        provider := provider
        owner := caller
        isActive := true }
    ∧ s2.nodeIds = s.nodeIds ++ [nid]
    ∧ s2.ownerNodes caller = s.ownerNodes caller ++ [nid]
    ∧ getNodeCount s2 = getNodeCount s + 1
    ∧ s2.nodeCountByChain chainType = s.nodeCountByChain chainType + 1
    ∧ (∀ c, c ≠ chainType → s2.nodeCountByChain c = s.nodeCountByChain c)
    ∧ (∀ o, o ≠ caller → s2.ownerNodes o = s.ownerNodes o) := by
  simp only [registerNode] at hreg
  split_ifs at hreg with hdup
  simp only [Except.ok.injEq, Prod.mk.injEq] at hreg
  obtain ⟨hs2, hnid⟩ := hreg
  subst hnid
  subst hs2
  refine ⟨by simp, rfl, by simp, ?_, by simp, ?_, ?_⟩
  · simp [getNodeCount]
  · intro c hc
    simp [hc]
  · intro o ho
    simp [ho]

/-- Hash instantiation for the C8 witness. -/
def c8hash : Nat → String → Nat → Nat := fun _ _ _ => 9

/-- Post-state and identifier of the concrete registration of the C8
witness (the registration succeeds, so the fallback arm is never taken). -/
def c8post : Registry × Nat :=
  match registerNode c8hash emptyRegistry 4 "n" ChainType.BSC "u" "v" "r"
      CloudProvider.Azure 6 with
  | Except.ok p => p
  | Except.error _ => (emptyRegistry, 0)

/-- Witness for C8 at a concrete registration on the fresh registry. -/
theorem C8_register_wit :
    (c8post.1.nodes c8post.2 =
      { id := c8post.2
        name := "n"
        chainType := ChainType.BSC
        endpointUrl := "u"
        status := NodeStatus.Starting
        version := "v"
        currentBlock := 0
        highestBlock := 0
        registeredAt := 6
        updatedAt := 6
        region := "r"
        provider := CloudProvider.Azure
        owner := 4
        isActive := true })
    ∧ c8post.1.nodeIds = emptyRegistry.nodeIds ++ [c8post.2]
    ∧ c8post.1.ownerNodes 4 = emptyRegistry.ownerNodes 4 ++ [c8post.2]
    ∧ getNodeCount c8post.1 = getNodeCount emptyRegistry + 1
    ∧ c8post.1.nodeCountByChain ChainType.BSC
        = emptyRegistry.nodeCountByChain ChainType.BSC + 1
    ∧ (∀ c, c ≠ ChainType.BSC →
        c8post.1.nodeCountByChain c = emptyRegistry.nodeCountByChain c)
    ∧ (∀ o, o ≠ 4 → c8post.1.ownerNodes o = emptyRegistry.ownerNodes o) :=
  C8_register c8hash emptyRegistry 4 "n" ChainType.BSC "u" "v" "r"
    CloudProvider.Azure 6 c8post.1 c8post.2 rfl

/-- Ledger opening the C7 scenario: vesting window [0,100], no supply yet,
admin 1 (window values as given by the scenario of the claim; the ledger
operations read the window from the state). -/
def c7s0 : Ledger where
  vestingStartTime := 0
  vestingEndTime := 100
  totalVested := 0
  vestedAmount := fun _ => 0
  claimedAmount := fun _ => 0
  totalSupply := 0
  balanceOf := fun _ => 0
  isAdmin := fun a => a == 1
  paused := false

/-- C7 scenario, step 1: the admin grants 10000 to beneficiary 2 at t = 0. -/
def c7s1 : Ledger := tokRun c7s0 (addVesting c7s0 1 2 10000)

/-- C7 scenario, step 2: beneficiary 2 claims at t = 50 (receiving 5000). -/
def c7s2 : Ledger := tokRunP c7s1 (claimVestedTokens c7s1 2 50)

/-- C7: a claim recomputes the claimable amount and fails exactly when that
amount is zero (every failure happens at zero recomputed claimable, and
every success returns the non-zero recomputed claimable, adds it to the
claimant's claimed total and touches no other beneficiary); and in the
scenario with a 10000 grant on window [0,100], the claim at t = 50 returns
5000, an immediate second claim at t = 50 fails with NothingToClaim, and
the claim at t = 100 returns the remaining 5000. -/
theorem C7_claim_behavior :
    (∀ (s : Ledger) (b now : Nat), s.paused = false → s.vestingStartTime ≤ now →
      match claimVestedTokens s b now with
      | Except.error _ => getClaimableAmount s b now = 0
      | Except.ok (s2, amt) =>
          amt = getClaimableAmount s b now ∧ amt ≠ 0
          ∧ s2.claimedAmount b = s.claimedAmount b + amt
          ∧ (∀ b2, b2 ≠ b → s2.claimedAmount b2 = s.claimedAmount b2)
          ∧ s2.vestedAmount = s.vestedAmount)
    ∧ tokAmt (claimVestedTokens c7s1 2 50) = 5000
    ∧ tokErrOfP (claimVestedTokens c7s2 2 50) = some TokenError.noTokensToClaim
    ∧ tokAmt (claimVestedTokens c7s2 2 100) = 5000
    ∧ (tokRunP c7s2 (claimVestedTokens c7s2 2 100)).claimedAmount 2 = 10000 := by
  refine ⟨?_, by decide, by decide, by decide, by decide⟩
  intro s b now hp hnow
  simp only [claimVestedTokens, getClaimableAmount, hp, Bool.false_eq_true, if_false]
  generalize hvs : s.vestedAmount b * (now - s.vestingStartTime)
      / (s.vestingEndTime - s.vestingStartTime) = vs
  split_ifs <;> dsimp only []
  all_goals try omega
  all_goals refine ⟨by omega, by omega, by simp, fun b2 hb2 => by simp [hb2], rfl⟩

/-- Witness for C7 instantiating its general clause at the scenario state
`c7s1`, beneficiary 2, time 50 (a successful claim of 5000). -/
theorem C7_claim_behavior_wit :
    (match claimVestedTokens c7s1 2 50 with
      | Except.error _ => getClaimableAmount c7s1 2 50 = 0
      | Except.ok (s2, amt) =>
          amt = getClaimableAmount c7s1 2 50 ∧ amt ≠ 0
          ∧ s2.claimedAmount 2 = c7s1.claimedAmount 2 + amt
          ∧ (∀ b2, b2 ≠ 2 → s2.claimedAmount b2 = c7s1.claimedAmount b2)
          ∧ s2.vestedAmount = c7s1.vestedAmount) :=
  C7_claim_behavior.1 c7s1 2 50 (by decide) (by decide)

/-- Division bound used for the vesting interpolation: a linear fraction of
`v` taken over a subinterval of the window never exceeds `v`. -/
theorem linDiv_le {v ws we t : Nat} (hw : ws < we) (ht : t ≤ we) :
    v * (t - ws) / (we - ws) ≤ v := by
  calc v * (t - ws) / (we - ws)
      ≤ v * (we - ws) / (we - ws) :=
        Nat.div_le_div_right (Nat.mul_le_mul_left v (by omega))
    _ = v := Nat.mul_div_cancel v (by omega)

/-- The linearly vested amount never exceeds the vested total. -/
theorem linVest_le {v ws we t : Nat} (hw : ws < we) : linVest v ws we t ≤ v := by
  unfold linVest
  split_ifs with h
  · exact Nat.le_refl v
  · exact linDiv_le hw (by omega)

/-- The linearly vested amount is monotone in the vested total and in
time. -/
theorem linVest_mono {v v2 ws we t t2 : Nat} (hw : ws < we) (hv : v ≤ v2)
    (ht : t ≤ t2) : linVest v ws we t ≤ linVest v2 ws we t2 := by
  unfold linVest
  split_ifs with h1 h2 h2
  · exact hv
  · omega
  · exact le_trans (linDiv_le hw (by omega)) hv
  · exact Nat.div_le_div_right (Nat.mul_le_mul hv (by omega))

/-- State facts extracted from a successful `addVesting`: the window, the
claimed mapping and the pause flag are untouched, and no beneficiary's
vested amount decreases. -/
theorem addVesting_ok {s : Ledger} {caller b amt : Nat} {s2 : Ledger}
    (h : addVesting s caller b amt = Except.ok s2) :
    s2.vestingStartTime = s.vestingStartTime
    ∧ s2.vestingEndTime = s.vestingEndTime
    ∧ s2.claimedAmount = s.claimedAmount
    ∧ s2.paused = s.paused
    ∧ (∀ x, s.vestedAmount x ≤ s2.vestedAmount x) := by
  by_cases h1 : s.isAdmin caller = true
  case neg => simp [addVesting, h1] at h
  by_cases h2 : b = 0
  case pos => simp [addVesting, h1, h2] at h
  by_cases h3 : amt = 0
  case pos => simp [addVesting, h1, h2, h3] at h
  by_cases h4 : MAX_SUPPLY < s.totalSupply + amt
  case pos => simp [addVesting, h1, h2, h3, h4] at h
  simp only [addVesting, if_pos h1, if_neg h2, if_neg h3, if_neg h4,
    Except.ok.injEq] at h
  subst h
  refine ⟨rfl, rfl, rfl, rfl, ?_⟩
  intro x
  by_cases hx : x = b <;> simp [hx]

/-- State facts extracted from a successful `claimVestedTokens` at time
`now`: the window and vested mapping are untouched, other beneficiaries'
claimed amounts are untouched, and the claimant's new claimed amount is the
full vested total (when `now` is past the window end) or exactly the
linearly vested amount (when `now` lies inside the window, which then also
bounds `now` below by the window start via the elapsed-time check). -/
theorem claimVested_ok {s : Ledger} {b now : Nat} {s2 : Ledger} {amt : Nat}
    (h : claimVestedTokens s b now = Except.ok (s2, amt)) :
    s2.vestingStartTime = s.vestingStartTime
    ∧ s2.vestingEndTime = s.vestingEndTime
    ∧ s2.vestedAmount = s.vestedAmount
    ∧ s2.paused = s.paused
    ∧ (∀ x, x ≠ b → s2.claimedAmount x = s.claimedAmount x)
    ∧ ((s.vestingEndTime ≤ now ∧ s2.claimedAmount b = s.vestedAmount b)
       ∨ (s.vestingStartTime ≤ now ∧ now < s.vestingEndTime
          ∧ s2.claimedAmount b
              = s.vestedAmount b * (now - s.vestingStartTime)
                  / (s.vestingEndTime - s.vestingStartTime))) := by
  by_cases hp : s.paused = true
  case pos => simp [claimVestedTokens, hp] at h
  by_cases hv0 : s.vestedAmount b = 0
  case pos => simp [claimVestedTokens, hp, hv0] at h
  by_cases hcl : s.vestedAmount b ≤ s.claimedAmount b
  case pos => simp [claimVestedTokens, hp, hv0, hcl] at h
  by_cases hend : s.vestingEndTime ≤ now
  · by_cases hz : s.vestedAmount b - s.claimedAmount b = 0
    case pos => simp [claimVestedTokens, hp, hv0, hcl, hend, hz] at h
    simp only [claimVestedTokens, if_neg hp, if_neg hv0, if_neg hcl, if_pos hend,
      if_neg hz, Except.ok.injEq, Prod.mk.injEq] at h
    obtain ⟨hps, hpa⟩ := h
    subst hps
    refine ⟨rfl, rfl, rfl, rfl, ?_, Or.inl ⟨hend, ?_⟩⟩
    · intro x hx
      simp [hx]
    · dsimp only []
      rw [if_pos rfl]
      omega
  · by_cases hlow : now < s.vestingStartTime
    case pos => simp [claimVestedTokens, hp, hv0, hcl, hend, hlow] at h
    by_cases hper : s.vestingEndTime - s.vestingStartTime = 0
    case pos => simp [claimVestedTokens, hp, hv0, hcl, hend, hlow, hper] at h
    by_cases hund : s.vestedAmount b * (now - s.vestingStartTime)
        / (s.vestingEndTime - s.vestingStartTime) < s.claimedAmount b
    case pos => simp [claimVestedTokens, hp, hv0, hcl, hend, hlow, hper, hund] at h
    by_cases hz : s.vestedAmount b * (now - s.vestingStartTime)
        / (s.vestingEndTime - s.vestingStartTime) - s.claimedAmount b = 0
    case pos => simp [claimVestedTokens, hp, hv0, hcl, hend, hlow, hper, hund, hz] at h
    simp only [claimVestedTokens, if_neg hp, if_neg hv0, if_neg hcl, if_neg hend,
      if_neg hlow, if_neg hper, if_neg hund, if_neg hz, Except.ok.injEq,
      Prod.mk.injEq] at h
    obtain ⟨hps, hpa⟩ := h
    subst hps
    refine ⟨rfl, rfl, rfl, rfl, ?_, Or.inr ⟨by omega, by omega, ?_⟩⟩
    · intro x hx
      simp [hx]
    · dsimp only []
      rw [if_pos rfl]
      exact Nat.add_sub_cancel' (Nat.le_of_not_lt hund)

/-- Invariant carried along reachable ledger traces: the vesting window is
well formed, the clock is past the window start, and every beneficiary's
claimed amount is bounded by the amount linearly vested at the current
logical time. -/
def LedgerInv (s : Ledger) (t : Nat) : Prop :=
  s.vestingStartTime < s.vestingEndTime ∧ s.vestingStartTime ≤ t ∧
  ∀ b, s.claimedAmount b
    ≤ linVest (s.vestedAmount b) s.vestingStartTime s.vestingEndTime t

/-- Every reachable ledger state satisfies the invariant. -/
theorem reach_inv {s : Ledger} {t : Nat} (h : Reach s t) : LedgerInv s t := by
  induction h with
  | init startTime admin initialSupply hsup =>
      refine ⟨?_, Nat.le_refl startTime, ?_⟩
      · show startTime < startTime + VESTING_DURATION
        have h0 : 0 < VESTING_DURATION := by norm_num [VESTING_DURATION]
        omega
      · intro b
        exact Nat.zero_le _
  | addV caller beneficiary amount hr ht hop ih =>
      obtain ⟨hse, hst, hcl⟩ := ih
      obtain ⟨h1, h2, h3, h4, h5⟩ := addVesting_ok hop
      refine ⟨by rw [h1, h2]; exact hse, by rw [h1]; omega, ?_⟩
      intro b
      rw [h1, h2, h3]
      exact le_trans (hcl b) (linVest_mono hse (h5 b) ht)
  | claim beneficiary hr ht hop ih =>
      obtain ⟨hse, hst, hcl⟩ := ih
      obtain ⟨h1, h2, h3, h4, h5, h6⟩ := claimVested_ok hop
      refine ⟨by rw [h1, h2]; exact hse, by rw [h1]; omega, ?_⟩
      intro b
      rw [h1, h2, h3]
      by_cases hb : b = beneficiary
      · subst hb
        rcases h6 with ⟨hend, heq⟩ | ⟨hs1, hs2, heq⟩
        · rw [heq]
          unfold linVest
          rw [if_pos hend]
        · rw [heq]
          unfold linVest
          rw [if_neg (by omega)]
      · rw [h5 b hb]
        exact le_trans (hcl b) (linVest_mono hse (Nat.le_refl _) ht)

/-- C1: in every ledger state reachable by a serial sequence of
`addVesting` and `claimVestedTokens` operations with non-decreasing logical
timestamps, every beneficiary's claimed total is at most their vested
total. -/
theorem C1_claimed_le_vested {s : Ledger} {t : Nat} (h : Reach s t) :
    ∀ b, s.claimedAmount b ≤ s.vestedAmount b := by
  obtain ⟨hse, hst, hcl⟩ := reach_inv h
  intro b
  exact le_trans (hcl b) (linVest_le hse)

/-- Initial ledger of the C1 witness trace. -/
def c1s0 : Ledger := initLedger 0 1 0

/-- Second state of the C1 witness trace: the admin vests 500 to
beneficiary 2 at t = 0. -/
def c1s1 : Ledger := tokRun c1s0 (addVesting c1s0 1 2 500)

/-- Witness for C1 on the concrete two-step reachable trace ending in
`c1s1`. -/
theorem C1_claimed_le_vested_wit :
    c1s1.claimedAmount 2 ≤ c1s1.vestedAmount 2 :=
  C1_claimed_le_vested
    (Reach.addV 1 2 500 (Reach.init 0 1 0 (Nat.zero_le MAX_SUPPLY))
      (Nat.le_refl 0) rfl) 2

/-- C10: in every reachable ledger state, a claim executed inside the
vesting window at a time `now` no earlier than the last operation finds the
claimed total bounded by the linearly vested amount at `now`, so the
unguarded subtraction `vestedSoFar - claimed` of `claimVestedTokens` never
underflows: the operation never aborts with the subtraction-underflow
panic. -/
theorem C10_no_claim_underflow {s : Ledger} {t : Nat} (h : Reach s t)
    (b now : Nat) (hle : t ≤ now) (hwin : now < s.vestingEndTime) :
    s.claimedAmount b
      ≤ s.vestedAmount b * (now - s.vestingStartTime)
          / (s.vestingEndTime - s.vestingStartTime)
    ∧ claimVestedTokens s b now ≠ Except.error TokenError.claimUnderflow := by
  obtain ⟨hse, hst, hcl⟩ := reach_inv h
  have hmain : s.claimedAmount b
      ≤ s.vestedAmount b * (now - s.vestingStartTime)
          / (s.vestingEndTime - s.vestingStartTime) := by
    have h2 := le_trans (hcl b) (linVest_mono hse (Nat.le_refl _) hle)
    unfold linVest at h2
    rwa [if_neg (by omega)] at h2
  refine ⟨hmain, ?_⟩
  by_cases hp : s.paused = true
  · simp [claimVestedTokens, hp]
  by_cases hv0 : s.vestedAmount b = 0
  · simp [claimVestedTokens, hp, hv0]
  by_cases hcl2 : s.vestedAmount b ≤ s.claimedAmount b
  · simp [claimVestedTokens, hp, hv0, hcl2]
  have hend : ¬ s.vestingEndTime ≤ now := by omega
  have hlow : ¬ now < s.vestingStartTime := by omega
  have hper : ¬ (s.vestingEndTime - s.vestingStartTime = 0) := by omega
  have hund : ¬ (s.vestedAmount b * (now - s.vestingStartTime)
      / (s.vestingEndTime - s.vestingStartTime) < s.claimedAmount b) :=
    Nat.not_lt.mpr hmain
  by_cases hz : s.vestedAmount b * (now - s.vestingStartTime)
      / (s.vestingEndTime - s.vestingStartTime) - s.claimedAmount b = 0
  · simp [claimVestedTokens, hp, hv0, hcl2, hend, hlow, hper, hund, hz]
  · simp [claimVestedTokens, hp, hv0, hcl2, hend, hlow, hper, hund, hz]

/-- Witness for C10 at the freshly deployed ledger, beneficiary 2, time 5
(inside the 730-day window). -/
theorem C10_no_claim_underflow_wit :
    (initLedger 0 1 0).claimedAmount 2
      ≤ (initLedger 0 1 0).vestedAmount 2 * (5 - (initLedger 0 1 0).vestingStartTime)
          / ((initLedger 0 1 0).vestingEndTime - (initLedger 0 1 0).vestingStartTime)
    ∧ claimVestedTokens (initLedger 0 1 0) 2 5
        ≠ Except.error TokenError.claimUnderflow :=
  C10_no_claim_underflow (Reach.init 0 1 0 (Nat.zero_le MAX_SUPPLY)) 2 5
    (Nat.zero_le 5) (by decide)
